import Mathlib

/-!
Verification of the chatbot backend's turn pipeline
(`backend/services/chat_service.py` and its helpers in
`backend/services/chat/internal/`, plus the legacy inline route
`backend/api/chat.py` and the engine dispatcher `backend/llm/engine.py`).

Texts are modelled as `String` / `List Char`; relevance scores as `ℚ`
(the Python floats involved are small decimal constants and the code only
compares them); Python dicts coming from the retriever as structures with
`Option` fields mirroring `dict.get` defaults; `json.loads` as an abstract
parser parameter; the external collaborators (vector retriever, generation
backends, product DB row, environment flags) as an oracle record fixed for
the duration of one turn.  Python's `str.lower` is modelled as per-char
ASCII lowercasing (identity on the Korean ranges appearing in the code),
and `str.strip` with the ASCII whitespace set.
-/

/-- Python `str.strip` whitespace class (ASCII part). -/
def isPySpace (c : Char) : Bool :=
  c = ' ' || c = '\t' || c = '\n' || c = '\r' || c = '\x0b' || c = '\x0c'

/-- Python `s.lower()`, per character (ASCII letters; identity on Hangul). -/
def pyLower (s : List Char) : List Char :=
  s.map Char.toLower

/-- Python `s.strip()`: drop leading and trailing whitespace. -/
def pyStrip (s : List Char) : List Char :=
  ((s.dropWhile isPySpace).reverse.dropWhile isPySpace).reverse

/-- Python `sub in s` for strings: substring containment. -/
def pyIn (sub : List Char) : List Char → Bool
  | [] => List.isPrefixOf sub []
  | s@(_ :: rest) => List.isPrefixOf sub s || pyIn sub rest

/-- Auxiliary scanner for `pyCount`: `skip` positions are still covered by
the previous match (non-overlapping counting, left to right). -/
def pyCountGo (sub : List Char) : List Char → Nat → Nat
  | [], _ => 0
  | _ :: rest, Nat.succ k => pyCountGo sub rest k
  | s@(_ :: rest), 0 =>
    if List.isPrefixOf sub s then 1 + pyCountGo sub rest (sub.length - 1)
    else pyCountGo sub rest 0

/-- Python `s.count(sub)`: number of non-overlapping occurrences. -/
def pyCount (sub s : List Char) : Nat :=
  if sub = [] then s.length + 1 else pyCountGo sub s 0

/-- Python `s.split(sep, 1)` when `sep` occurs: the parts before and after
the first occurrence of `sep`; `none` when `sep` does not occur
(i.e. `sep not in s`). -/
def splitFirst (sep : List Char) : List Char → Option (List Char × List Char)
  | [] => if sep = [] then some ([], []) else none
  | c :: rest =>
    if List.isPrefixOf sep (c :: rest) then some ([], (c :: rest).drop sep.length)
    else (splitFirst sep rest).map (fun p => (c :: p.1, p.2))

/-- The character class of the token regex `[0-9a-z가-힣]` (applied after
lowercasing). -/
def isWordChar (c : Char) : Bool :=
  ('0' ≤ c && c ≤ '9') || ('a' ≤ c && c ≤ 'z') || ('가' ≤ c && c ≤ '힣')

/-- Maximal runs of word characters, in order (`cur` is the reversed run
being accumulated).  `re.findall(r"[0-9a-z가-힣]{2,}", s)` is these runs
restricted to length ≥ 2, because the greedy regex matches every maximal
run of class characters of length at least 2 whole. -/
def tokenRunsGo : List Char → List Char → List (List Char)
  | cur, [] => if cur = [] then [] else [cur.reverse]
  | cur, c :: rest =>
    if isWordChar c then tokenRunsGo (c :: cur) rest
    else if cur = [] then tokenRunsGo [] rest
    else cur.reverse :: tokenRunsGo [] rest

/-- `re.findall(r"[0-9a-z가-힣]{2,}", s)`. -/
def findTokens (s : List Char) : List (List Char) :=
  (tokenRunsGo [] s).filter (fun t => 2 ≤ t.length)

/-! ## `services/chat/internal/constants.py` -/

/-- `MIN_CONTEXT_SCORE = 0.05`. -/
def MIN_CONTEXT_SCORE : ℚ := mkRat 5 100

/-- `DIRECT_QNA_MIN_SCORE = 0.07`. -/
def DIRECT_QNA_MIN_SCORE : ℚ := mkRat 7 100

/-- `DIRECT_QNA_STRONG_SCORE = 0.18`. -/
def DIRECT_QNA_STRONG_SCORE : ℚ := mkRat 18 100

/-- The default value of `QUERY_STOP_TOKENS` (environment variable
`CHAT_QUERY_STOP_TOKENS` unset).  The functions below take the stop-token
list as a parameter since it is configuration. -/
def DEFAULT_QUERY_STOP_TOKENS : List String :=
  ["이", "그", "저", "것", "거", "수", "좀", "정도", "관련", "가능", "여부",
   "있나", "있나요", "있어", "있어요", "되나요", "되나", "인가", "인가요",
   "어떻게", "왜", "무엇", "뭐", "어떤", "얼마", "얼마나", "해주세요", "알려줘",
   "기능"]

/-! ## `services/chat/internal/guards.py` -/

/-- `extract_qna_answer`: the part after the first `"A:"`, stripped;
`none` when `content` is empty, has no `"A:"`, or the stripped part is
empty. -/
def extract_qna_answer (content : String) : Option String :=
  if content = "" then none
  else
    match splitFirst "A:".data content.data with
    | none => none
    | some p =>
      let answer := pyStrip p.2
      if answer = [] then none else some (String.mk answer)

/-- `extract_qna_question`: the part after the first `"Q:"` and before the
following `"A:"` (if any), stripped; `none` on failure. -/
def extract_qna_question (content : String) : Option String :=
  if content = "" then none
  else
    match splitFirst "Q:".data content.data with
    | none => none
    | some p =>
      let q_part :=
        match splitFirst "A:".data p.2 with
        | some p2 => p2.1
        | none => p.2
      let q := pyStrip q_part
      if q = [] then none else some (String.mk q)

/-- `keyword_overlap(query, text)`: some kept query token occurs in
`text` (both lowercased).  `stop` is the `QUERY_STOP_TOKENS` set. -/
def keyword_overlap (stop : List String) (query text : String) : Bool :=
  if query = "" || text = "" then false
  else
    let q := pyLower query.data
    let t := pyLower text.data
    let tokens := findTokens q
    if tokens = [] then false
    else
      let tokens := tokens.filter (fun tok => ¬ stop.contains (String.mk tok))
      if tokens = [] then false
      else tokens.any (fun tok => pyIn tok t)

/-- The fixed red-flag fragment list of `looks_like_template_garbage`. -/
def red_flags : List String :=
  ["[type]", "답변 내용에 포함된 정보", "=== 답변", "=== 질문", "q:", "a:",
   "답변 형식", "(description|review|qna)", "description|review|qna"]

/-- The meta-phrase whose repetition (≥ 2 occurrences) alone classifies an
answer as garbage. -/
def META_PHRASE : String := "답변 내용에 포함된 정보"

/-- `looks_like_template_garbage(answer)`. -/
def looks_like_template_garbage (answer : String) : Bool :=
  if answer = "" then true
  else
    let lowered := pyLower answer.data
    let hits := red_flags.countP (fun f => pyIn f.data lowered)
    if 2 ≤ hits then true
    else if 2 ≤ pyCount META_PHRASE.data answer.data then true
    else false

/-! ### JSON values

`json.loads` is external library code; it is modelled as an abstract
parameter `jsonLoads : String → Option JValue` (`none` = raises).  A
`jobj` models an already-constructed Python dict (keys distinct); `jother`
carries the `str()` rendering of a non-string scalar (number, bool,
null). -/

inductive JValue : Type where
  | jstr (s : String) : JValue
  | jlist (xs : List JValue) : JValue
  | jobj (fields : List (String × JValue)) : JValue
  | jother (pyrepr : String) : JValue

mutual

/-- Python `str(x)` of a parsed JSON value.  The rendering of nested
containers approximates CPython's (no quoting of inner strings); no claim
depends on it, the code only applies `str` to cited-id list elements. -/
def pyStr : JValue → String
  | .jstr s => s
  | .jother r => r
  | .jlist xs => "[" ++ pyStrList xs ++ "]"
  | .jobj fs => "\x7b" ++ pyStrFields fs ++ "\x7d"

/-- Comma-separated renderings of list elements. -/
def pyStrList : List JValue → String
  | [] => ""
  | [x] => pyStr x
  | x :: rest => pyStr x ++ ", " ++ pyStrList rest

/-- Comma-separated renderings of dict entries. -/
def pyStrFields : List (String × JValue) → String
  | [] => ""
  | [kv] => kv.1 ++ ": " ++ pyStr kv.2
  | kv :: rest => kv.1 ++ ": " ++ pyStr kv.2 ++ ", " ++ pyStrFields rest

end

/-- Python `parsed.get(key)` on a dict's field list. -/
def jlookup (fields : List (String × JValue)) (key : String) : Option JValue :=
  (fields.find? (fun kv => kv.1 = key)).map (fun kv => kv.2)

/-- The code-fence stripping step of `extract_json_object`:
`re.sub(r"^```[a-zA-Z0-9_-]*\s*", "", s)` followed by
`re.sub(r"\s*```$", "", s).strip()`, applied only when `s` starts with
three backticks. -/
def stripCodeFence (s : List Char) : List Char :=
  if List.isPrefixOf "```".data s then
    let s1 := ((s.drop 3).dropWhile
        (fun c => c.isAlpha || c.isDigit || c = '_' || c = '-')).dropWhile isPySpace
    let s2 :=
      if List.isPrefixOf "```".data.reverse s1.reverse then
        ((s1.reverse.drop 3).dropWhile isPySpace).reverse
      else s1
    pyStrip s2
  else s

/-- `s.strip()` then fence stripping: the text actually handed to the
whole-text parse attempt. -/
def preprocessJson (text : String) : List Char :=
  stripCodeFence (pyStrip text.data)

/-- The second parse attempt's candidate: `s[s.find("{") : s.rfind("}") + 1]`,
`none` when either brace is missing or `end <= start`. -/
def brace_slice (s : List Char) : Option (List Char) :=
  match s.findIdx? (fun c => c = '{'), s.reverse.findIdx? (fun c => c = '}') with
  | some start, some revEnd =>
    let stop := s.length - 1 - revEnd
    if stop ≤ start then none else some ((s.take (stop + 1)).drop start)
  | _, _ => none

/-- `extract_json_object(text)`: whole-text parse (after strip and fence
removal), returning the dict's fields; if the whole-text parse succeeds
with a non-dict the result is `None` without trying the brace substring;
only a parse failure falls through to the first-`{`-to-last-`}`
substring. -/
def extract_json_object (jsonLoads : String → Option JValue) (text : String) :
    Option (List (String × JValue)) :=
  if text = "" then none
  else
    let s := preprocessJson text
    match jsonLoads (String.mk s) with
    | some (.jobj fields) => some fields
    | some _ => none
    | none =>
      match brace_slice s with
      | none => none
      | some candidate =>
        match jsonLoads (String.mk candidate) with
        | some (.jobj fields) => some fields
        | _ => none

/-! ## Retriever contexts and response shapes

`retrieve_context` returns a list of dicts (`vector_store.search_documents`
builds them with keys `content`, `type`, `score`, `product_id`); the
service accesses them only through `dict.get`, so a context is modelled
with `Option` fields, `none` meaning the key is absent. -/

structure Context where
  source_id : Option String
  content : Option String
  type : Option String
  score : Option ℚ
deriving DecidableEq

/-- `float(ctx.get("score", 0.0) or 0.0)` (also `ctx.get("score", 0.0)`:
the `or 0.0` maps only `0.0` to itself). -/
def ctxScore (ctx : Context) : ℚ :=
  ctx.score.getD 0

/-- `str(ctx.get("source_id") or "")` (a missing id and an empty id both
give `""`). -/
def ctxSourceId (ctx : Context) : String :=
  ctx.source_id.getD ""

/-- `ctx.get("content", "") or ""`. -/
def ctxContent (ctx : Context) : String :=
  ctx.content.getD ""

/-- `ctx.get("type", "") or ""` (and `best_ctx.get("type")`, compared to
`"qna"`: a missing key compares unequal either way). -/
def ctxType (ctx : Context) : String :=
  ctx.type.getD ""

/-! ## `services/chat/internal/responses.py` -/

/-- An entry of a response's `sources` list (`context_to_source` output
shape). -/
structure Source where
  source_id : String
  content : String
  type : String
  score : ℚ
deriving DecidableEq

/-- The dict shape `build_chat_response` produces (the service's
`ChatResponse`). -/
structure ChatResponse where
  answer : String
  sources : List Source
  engine : String
  product_id : Int
  suggested_questions : List String
deriving DecidableEq

/-- `no_rag_fallback_answer()`: the fixed refusal text. -/
def no_rag_fallback_answer : String :=
  "제공된 상품 정보에서 답변할 근거를 찾지 못해 정확히 안내드리기 어렵습니다. " ++
  "상품 상세 페이지의 Q&A에 질문을 남겨주시면 확인 후 답변드릴게요."

/-- `build_chat_response`. -/
def build_chat_response (answer : String) (sources : List Source)
    (selected_engine : String) (product_id : Int)
    (suggested_questions : List String) : ChatResponse :=
  { answer := answer, sources := sources, engine := selected_engine,
    product_id := product_id, suggested_questions := suggested_questions }

/-- `context_to_source`. -/
def context_to_source (ctx : Context) : Source :=
  { source_id := ctxSourceId ctx, content := ctxContent ctx,
    type := ctxType ctx, score := ctxScore ctx }

/-- `build_no_rag_stop_response`: refusal text, no sources, no
suggestions. -/
def build_no_rag_stop_response (selected_engine : String) (product_id : Int) :
    ChatResponse :=
  build_chat_response no_rag_fallback_answer [] selected_engine product_id []

/-- A produced source re-read as a retriever context (a dict carrying
exactly these four keys), for re-running the attribution filter on an
already-filtered list. -/
def sourceAsContext (s : Source) : Context :=
  { source_id := some s.source_id, content := some s.content,
    type := some s.type, score := some s.score }

/-! ## `services/chat_service.py` helpers -/

/-- `max((ctx.get("score", 0.0) for ctx in contexts), default=0.0)`. -/
def best_score (contexts : List Context) : ℚ :=
  match contexts with
  | [] => 0
  | c :: cs => cs.foldl (fun m d => max m (ctxScore d)) (ctxScore c)

/-- Python `max(c :: cs, key=...)`: the first element with maximal key
(a later element replaces the current one only on a strictly greater
key). -/
def pyMaxBy (key : Context → ℚ) (c : Context) : List Context → Context
  | [] => c
  | d :: ds => pyMaxBy key (if key c < key d then d else c) ds

/-- `_build_stop_response_if_needed`: the confidence gate.  `some` is a
stop (no evidence, or best score strictly below `MIN_CONTEXT_SCORE`);
`none` proceeds. -/
def build_stop_response_if_needed (contexts : List Context)
    (selected_engine : String) (product_id : Int) : Option ChatResponse :=
  if contexts = [] then
    some (build_no_rag_stop_response selected_engine product_id)
  else if best_score contexts < MIN_CONTEXT_SCORE then
    some (build_no_rag_stop_response selected_engine product_id)
  else none

/-- `_try_direct_qna_answer`: the feature-flagged direct-answer shortcut.
`enabled` is `DIRECT_QNA_ENABLED` (env `CHAT_DIRECT_QNA_ENABLED`), `stop`
the stop-token set. -/
def try_direct_qna_answer (stop : List String) (enabled : Bool)
    (query : String) (contexts : List Context) (selected_engine : String)
    (product_id : Int) : Option ChatResponse :=
  if enabled = false then none
  else
    match contexts with
    | [] => none
    | c :: cs =>
      let best_ctx := pyMaxBy ctxScore c cs
      if ¬ (ctxType best_ctx = "qna" ∧ DIRECT_QNA_MIN_SCORE ≤ ctxScore best_ctx) then
        none
      else
        let qna_content := ctxContent best_ctx
        let qna_question := (extract_qna_question qna_content).getD ""
        let score := ctxScore best_ctx
        if ¬ (keyword_overlap stop query qna_question = true ∧
              DIRECT_QNA_STRONG_SCORE ≤ score) then
          none
        else
          match extract_qna_answer qna_content with
          | none => none
          | some direct =>
            some (build_chat_response direct [context_to_source best_ctx]
              selected_engine product_id [])

/-- `_parse_llm_output`: answer and `used_source_ids` from the LLM's JSON
output; on parse failure the raw text is the answer and the cited-id list
is empty. -/
def parse_llm_output (jsonLoads : String → Option JValue) (raw_text : String) :
    String × List String :=
  match extract_json_object jsonLoads raw_text with
  | some parsed =>
    let answer :=
      match jlookup parsed "answer" with
      | some (.jstr s) => if pyStrip s.data = [] then raw_text else String.mk (pyStrip s.data)
      | _ => raw_text
    let used_source_ids :=
      match jlookup parsed "used_source_ids" with
      | some (.jlist xs) =>
        (xs.filter (fun x => pyStrip (pyStr x).data ≠ [])).map pyStr
      | _ => []
    (answer, used_source_ids)
  | none => (raw_text, [])

/-- `_filter_sources_by_used_ids`: keep the contexts whose `source_id`
occurs in `used_source_ids` (membership in `set(used_source_ids)`), in
retrieval order, converted by `context_to_source`. -/
def filter_sources_by_used_ids (contexts : List Context)
    (used_source_ids : List String) : List Source :=
  (contexts.filter (fun ctx => used_source_ids.contains (ctxSourceId ctx))).map
    context_to_source

/-! ## `services/chat/internal/suggestions.py` -/

/-- The product row `db.repository.get_product_by_id` returns (external
DB); only its `name` is read, via `.get("name", "제품")`. -/
structure ProductRow where
  name : Option String

/-- `_get_default_questions`, with the DB lookup's result as a
parameter (`none` = product not found). -/
def get_default_questions (product : Option ProductRow) : List String :=
  match product with
  | none =>
    ["이 제품의 핵심 특징을 알려주세요",
     "구성품/옵션은 어떻게 되나요?",
     "사이즈/무게는 어느 정도인가요?",
     "사용/관리 방법을 알려주세요",
     "배송/교환/반품은 어떻게 되나요?"]
  | some p =>
    let product_name := p.name.getD "제품"
    if pyIn "이불".data product_name.data then
      [product_name ++ " 소재는 무엇인가요?",
       product_name ++ " 세탁/관리 방법은 어떻게 되나요?",
       product_name ++ " 사이즈/구성 옵션을 알려주세요",
       product_name ++ " 두께감/계절감은 어떤가요?",
       "배송/교환/반품은 어떻게 되나요?"]
    else if pyIn "쌀국수".data product_name.data then
      [product_name ++ " 조리 방법을 알려주세요",
       product_name ++ " 매운 정도가 어떤가요?",
       product_name ++ " 보관/유통기한은 어떻게 되나요?",
       product_name ++ " 1인분 기준 양이 어느 정도인가요?",
       "배송/교환/반품은 어떻게 되나요?"]
    else
      [product_name ++ " 핵심 특징을 알려주세요",
       product_name ++ " 구성품/옵션은 어떻게 되나요?",
       product_name ++ " 사이즈/무게는 어느 정도인가요?",
       product_name ++ " 사용/관리 방법을 알려주세요",
       "배송/교환/반품은 어떻게 되나요?"]

/-- `_question_match_score`: how many kept query tokens occur in the
candidate question (counted with multiplicity, as `re.findall` repeats a
token that appears twice in the query). -/
def question_match_score (stop : List String) (query question : String) : Nat :=
  if query = "" || question = "" then 0
  else
    let q := pyLower query.data
    let t := pyLower question.data
    let tokens := findTokens q
    if tokens = [] then 0
    else
      let tokens := tokens.filter (fun tok => ¬ stop.contains (String.mk tok))
      if tokens = [] then 0
      else tokens.countP (fun tok => pyIn tok t)

/-- The comparison realising Python's ascending stable sort under
`key=lambda x: (-x[1], x[2])` on `(question, score, idx)` triples. -/
def suggestionLe (a b : String × Nat × Nat) : Bool :=
  decide (b.2.1 < a.2.1) || (decide (a.2.1 = b.2.1) && decide (a.2.2 ≤ b.2.2))

/-- `suggest_related_questions`: unasked candidates from the item's
template set, stably sorted by descending match score (ties by original
template order via the enumerated index), truncated to `top_k`. -/
def suggest_related_questions (stop : List String) (product : Option ProductRow)
    (user_query : String) (asked_questions : List String) (top_k : Nat) :
    List String :=
  let defaults := get_default_questions product
  let candidates := defaults.filter (fun q => ¬ asked_questions.contains q)
  if candidates = [] then []
  else
    let scored := candidates.enum.map
      (fun iq => (iq.2, question_match_score stop user_query iq.2, iq.1))
    let sorted := scored.mergeSort suggestionLe
    (sorted.take top_k).map (fun t => t.1)

/-! ## External collaborators of one turn

Per the concurrency model, a turn is an independent unit of work: the
engine availability flags (set at startup), the environment configuration,
the retriever's answer for this turn's query, the generation backends'
raw outputs, the JSON library, and the product row are all fixed for the
turn and gathered in one oracle record. -/

structure Oracles where
  geminiAvailable : Bool
  localAvailable : Bool
  retrieved : List Context
  geminiText : String
  localText : String
  jsonLoads : String → Option JValue
  product : Option ProductRow
  stopTokens : List String
  directQnaEnabled : Bool

/-- The exceptions `llm.engine.generate_answer` can raise. -/
inductive PyError : Type where
  | runtime : PyError
  | value : PyError
deriving DecidableEq

/-- `llm/engine.py generate_answer(prompt, engine)`: result (or raised
exception) together with the list of backends actually invoked, in order.
When `engine == "gemini"` but Gemini is unavailable and the local model
is, the dispatcher silently falls back to the local backend. -/
def generate_answer (o : Oracles) (engine : String) :
    Except PyError String × List String :=
  if engine = "gemini" then
    if o.geminiAvailable = false then
      if o.localAvailable then (.ok o.localText, ["local"])
      else (.error .runtime, [])
    else (.ok o.geminiText, ["gemini"])
  else if engine = "local" then
    if o.localAvailable = false then (.error .runtime, [])
    else (.ok o.localText, ["local"])
  else (.error .value, [])

/-- An `HTTPException`, identified by its status code (the Korean detail
strings carry no logic and are omitted). -/
structure HttpError where
  status : Nat
deriving DecidableEq

/-- Which external calls a turn performed. -/
structure CallLog where
  retrieveCalls : Nat
  generateEngines : List String
deriving DecidableEq

/-- `services/chat_service.py handle_chat` (the spec's `handle_turn`):
engine validation and availability check, retrieval, confidence gate,
optional direct-QnA shortcut, generation, output parsing, template-garbage
guard, attribution filtering, suggestion generation.  Unexpected
exceptions surface as status 500; the result also reports the external
calls made. -/
def handle_chat (query : String) (product_id : Int) (engine : String)
    (conversation_history : List String) (o : Oracles) :
    Except HttpError ChatResponse × CallLog :=
  if engine ≠ "gemini" then (.error { status := 400 }, { retrieveCalls := 0, generateEngines := [] })
  else if o.geminiAvailable = false then (.error { status := 503 }, { retrieveCalls := 0, generateEngines := [] })
  else
    let contexts := o.retrieved
    match build_stop_response_if_needed contexts engine product_id with
    | some stop_response => (.ok stop_response, { retrieveCalls := 1, generateEngines := [] })
    | none =>
      match try_direct_qna_answer o.stopTokens o.directQnaEnabled query contexts engine product_id with
      | some direct_response => (.ok direct_response, { retrieveCalls := 1, generateEngines := [] })
      | none =>
        match generate_answer o engine with
        | (.error _, engs) => (.error { status := 500 }, { retrieveCalls := 1, generateEngines := engs })
        | (.ok raw_text, engs) =>
          let parsed := parse_llm_output o.jsonLoads raw_text
          let answer := parsed.1
          let used_source_ids := parsed.2
          if looks_like_template_garbage answer then
            (.ok (build_no_rag_stop_response engine product_id),
             { retrieveCalls := 1, generateEngines := engs })
          else
            (.ok (build_chat_response answer
                (filter_sources_by_used_ids contexts used_source_ids)
                engine product_id
                (suggest_related_questions o.stopTokens o.product query conversation_history 2)),
             { retrieveCalls := 1, generateEngines := engs })

/-! ## `api/chat.py` (the mounted route)

The router does not call `handle_chat`; it carries an inline copy of the
pipeline.  Its source entries have no `source_id`, and it performs no
JSON parsing and no cited-id attribution: `sources` is every retrieved
context.  (Its contexts always carry the `content`/`type`/`score` keys —
`vector_store.search_documents` builds them so — hence plain getters model
the `ctx["..."]` indexing.) -/

structure ApiSource where
  content : String
  type : String
  score : ℚ
deriving DecidableEq

structure ApiChatResponse where
  answer : String
  sources : List ApiSource
  engine : String
  product_id : Int
  suggested_questions : List String
deriving DecidableEq

/-- `api/chat.py chat(request)`. -/
def api_chat (query : String) (product_id : Int) (engine : String)
    (conversation_history : List String) (o : Oracles) :
    Except HttpError ApiChatResponse × CallLog :=
  if engine ≠ "gemini" then (.error { status := 400 }, { retrieveCalls := 0, generateEngines := [] })
  else if o.geminiAvailable = false then (.error { status := 503 }, { retrieveCalls := 0, generateEngines := [] })
  else
    match o.retrieved with
    | [] =>
      (.ok { answer := no_rag_fallback_answer, sources := [], engine := engine,
             product_id := product_id, suggested_questions := [] },
       { retrieveCalls := 1, generateEngines := [] })
    | c :: cs =>
      let contexts := c :: cs
      if best_score contexts < MIN_CONTEXT_SCORE then
        (.ok { answer := no_rag_fallback_answer, sources := [], engine := engine,
               product_id := product_id, suggested_questions := [] },
         { retrieveCalls := 1, generateEngines := [] })
      else
        let direct_result : Option String :=
          if o.directQnaEnabled then
            let best_ctx := pyMaxBy ctxScore c cs
            if ctxType best_ctx = "qna" ∧ DIRECT_QNA_MIN_SCORE ≤ ctxScore best_ctx then
              if keyword_overlap o.stopTokens query
                    ((extract_qna_question (ctxContent best_ctx)).getD "") = true ∧
                  DIRECT_QNA_STRONG_SCORE ≤ ctxScore best_ctx then
                extract_qna_answer (ctxContent best_ctx)
              else none
            else none
          else none
        match direct_result with
        | some direct =>
          (.ok { answer := direct,
                 sources := contexts.map (fun ctx =>
                   { content := ctxContent ctx, type := ctxType ctx, score := ctxScore ctx }),
                 engine := engine, product_id := product_id,
                 suggested_questions := [] },
           { retrieveCalls := 1, generateEngines := [] })
        | none =>
          match generate_answer o engine with
          | (.error _, engs) => (.error { status := 500 }, { retrieveCalls := 1, generateEngines := engs })
          | (.ok answer, engs) =>
            if looks_like_template_garbage answer then
              (.ok { answer := no_rag_fallback_answer, sources := [], engine := engine,
                     product_id := product_id, suggested_questions := [] },
               { retrieveCalls := 1, generateEngines := engs })
            else
              (.ok { answer := answer,
                     sources := contexts.map (fun ctx =>
                       { content := ctxContent ctx, type := ctxType ctx, score := ctxScore ctx }),
                     engine := engine, product_id := product_id,
                     suggested_questions :=
                       suggest_related_questions o.stopTokens o.product query conversation_history 2 },
               { retrieveCalls := 1, generateEngines := engs })

/-! ## The red-flag condition of claim C3, and concrete sample data -/

/-- The generated answer contains two distinct fragments of the fixed
red-flag list. -/
def contains_two_red_flags (a : String) : Prop :=
  ∃ f1 ∈ red_flags, ∃ f2 ∈ red_flags,
    f1 ≠ f2 ∧ pyIn f1.data a.data = true ∧ pyIn f2.data a.data = true

/-- A QnA passage as the retriever would return it (with a source id). -/
def qnaCtx : Context :=
  { source_id := some "p1",
    content := some "Q: 방수 되나요?\nA: 네, IPX7 등급입니다.",
    type := some "qna", score := some (mkRat 22 100) }

/-- A second, lower-scoring review passage. -/
def reviewCtx : Context :=
  { source_id := some "p2", content := some "후기: 배송이 빨라요",
    type := some "review", score := some (mkRat 10 100) }

/-- A neutral oracle: Gemini up, nothing retrieved, JSON never parses,
default configuration. -/
def oBlank : Oracles :=
  { geminiAvailable := true, localAvailable := false, retrieved := [],
    geminiText := "", localText := "", jsonLoads := fun _ => none,
    product := none, stopTokens := DEFAULT_QUERY_STOP_TOKENS,
    directQnaEnabled := false }

/-- Turn oracle for the direct-QnA scenario: flag on, two passages, the
QnA passage scoring highest. -/
def oC2 : Oracles :=
  { oBlank with retrieved := [qnaCtx, reviewCtx], directQnaEnabled := true }

/-- Turn oracle whose generation output contains two red-flag fragments
(`"q:"` and `"a:"`). -/
def oGarb : Oracles :=
  { oBlank with
    retrieved := [qnaCtx]
    geminiText := "질문 q: 방수 답변 a: 네" }

/-- A parsed backend object whose `answer` is a JSON `null` and whose
`used_source_ids` holds one real id and one blank entry. -/
def sampleFields : List (String × JValue) :=
  [("answer", JValue.jother "None"),
   ("used_source_ids", JValue.jlist [JValue.jstr "p1", JValue.jstr " "])]

/-! ## Shared helper lemmas -/

theorem contains_true_iff {α : Type} [BEq α] [LawfulBEq α] (l : List α) (x : α) :
    l.contains x = true ↔ x ∈ l := by
  simp [List.contains, List.elem_iff]

theorem mem_filter_sources (contexts : List Context) (used : List String) (s : Source) :
    s ∈ filter_sources_by_used_ids contexts used ↔
      ∃ ctx ∈ contexts, ctxSourceId ctx ∈ used ∧ s = context_to_source ctx := by
  simp only [filter_sources_by_used_ids, List.mem_map, List.mem_filter,
    contains_true_iff]
  constructor
  · rintro ⟨ctx, ⟨hmem, hid⟩, rfl⟩
    exact ⟨ctx, hmem, hid, rfl⟩
  · rintro ⟨ctx, hmem, hid, rfl⟩
    exact ⟨ctx, ⟨hmem, hid⟩, rfl⟩

theorem filter_sources_idem (contexts : List Context) (used : List String) :
    filter_sources_by_used_ids
      ((filter_sources_by_used_ids contexts used).map sourceAsContext) used
      = filter_sources_by_used_ids contexts used := by
  unfold filter_sources_by_used_ids
  rw [List.filter_map, List.map_map]
  have h1 : (List.filter ((fun ctx => used.contains (ctxSourceId ctx)) ∘ sourceAsContext)
      ((contexts.filter (fun ctx => used.contains (ctxSourceId ctx))).map context_to_source))
      = (contexts.filter (fun ctx => used.contains (ctxSourceId ctx))).map context_to_source := by
    apply List.filter_eq_self.2
    intro s hs
    obtain ⟨ctx, hctx, rfl⟩ := List.mem_map.1 hs
    have := (List.mem_filter.1 hctx).2
    simpa [Function.comp, sourceAsContext, ctxSourceId, context_to_source] using this
  rw [h1, List.map_map]
  apply List.map_congr_left
  intro ctx _
  rfl

theorem stop_response_shape (contexts : List Context) (e : String) (pid : Int)
    (r : ChatResponse) (h : build_stop_response_if_needed contexts e pid = some r) :
    r = build_no_rag_stop_response e pid := by
  unfold build_stop_response_if_needed at h
  split at h
  · exact (Option.some.inj h).symm
  · split at h
    · exact (Option.some.inj h).symm
    · exact absurd h (by simp)

theorem extract_qna_answer_nonempty (content a : String)
    (h : extract_qna_answer content = some a) : a ≠ "" := by
  unfold extract_qna_answer at h
  split at h
  · exact absurd h (by simp)
  · split at h
    · exact absurd h (by simp)
    · dsimp only at h
      split at h
      · exact absurd h (by simp)
      next hne =>
        have := Option.some.inj h
        subst this
        intro hmk
        exact hne (by simpa [String.ext_iff] using hmk)

theorem direct_answer_nonempty (stop : List String) (en : Bool) (query : String)
    (contexts : List Context) (e : String) (pid : Int) (r : ChatResponse)
    (h : try_direct_qna_answer stop en query contexts e pid = some r) :
    r.answer ≠ "" := by
  unfold try_direct_qna_answer at h
  split at h
  · exact absurd h (by simp)
  · split at h
    · exact absurd h (by simp)
    next c cs =>
      dsimp only at h
      split at h
      · exact absurd h (by simp)
      · split at h
        · exact absurd h (by simp)
        · split at h
          · exact absurd h (by simp)
          next direct hdir =>
            have := Option.some.inj h
            subst this
            exact extract_qna_answer_nonempty _ _ hdir

theorem garbage_false_nonempty (a : String)
    (h : looks_like_template_garbage a = false) : a ≠ "" := by
  intro ha
  subst ha
  simp [looks_like_template_garbage] at h

theorem isPrefixOf_lower (f s : List Char) (h : List.isPrefixOf f s = true) :
    List.isPrefixOf (pyLower f) (pyLower s) = true := by
  induction f generalizing s with
  | nil => simp [List.isPrefixOf, pyLower]
  | cons a as ih =>
    cases s with
    | nil => simp [List.isPrefixOf] at h
    | cons b bs =>
      simp only [List.isPrefixOf, Bool.and_eq_true, beq_iff_eq] at h
      simp only [pyLower, List.map_cons, List.isPrefixOf, Bool.and_eq_true, beq_iff_eq]
      exact ⟨by rw [h.1], ih bs h.2⟩

theorem pyIn_lower (f s : List Char) (hf : pyLower f = f) (h : pyIn f s = true) :
    pyIn f (pyLower s) = true := by
  induction s with
  | nil => simpa [pyLower] using h
  | cons c rest ih =>
    rw [show pyLower (c :: rest) = Char.toLower c :: pyLower rest from rfl]
    simp only [pyIn, Bool.or_eq_true] at h ⊢
    rcases h with hp | hr
    · left
      have := isPrefixOf_lower f (c :: rest) hp
      rwa [hf] at this
    · right
      exact ih hr

theorem red_flags_lower_fixed : ∀ f ∈ red_flags, pyLower f.data = f.data := by
  decide

theorem countP_two {α : Type} (l : List α) (p : α → Bool) (a b : α)
    (ha : a ∈ l) (hb : b ∈ l) (hab : a ≠ b) (hpa : p a = true) (hpb : p b = true) :
    2 ≤ l.countP p := by
  induction l with
  | nil => cases ha
  | cons x xs ih =>
    rcases List.mem_cons.1 ha with rfl | ha'
    · rcases List.mem_cons.1 hb with rfl | hb'
      · exact absurd rfl hab
      · have h1 : 0 < xs.countP p := List.countP_pos_iff.2 ⟨b, hb', hpb⟩
        rw [List.countP_cons, hpa]
        rw [show (if (true : Bool) = true then 1 else 0) = 1 from rfl]
        omega
    · rcases List.mem_cons.1 hb with rfl | hb'
      · have h1 : 0 < xs.countP p := List.countP_pos_iff.2 ⟨a, ha', hpa⟩
        rw [List.countP_cons, hpb]
        rw [show (if (true : Bool) = true then 1 else 0) = 1 from rfl]
        omega
      · have := ih ha' hb'
        rw [List.countP_cons]
        omega

theorem garbage_of_bad (a : String)
    (h : contains_two_red_flags a ∨ 2 ≤ pyCount META_PHRASE.data a.data) :
    looks_like_template_garbage a = true := by
  unfold looks_like_template_garbage
  by_cases ha : a = ""
  · simp [ha]
  · rw [if_neg ha]
    dsimp only
    rcases h with ⟨f1, hf1, f2, hf2, hne, h1, h2⟩ | hmeta
    · have l1 : pyIn f1.data (pyLower a.data) = true :=
        pyIn_lower _ _ (red_flags_lower_fixed f1 hf1) h1
      have l2 : pyIn f2.data (pyLower a.data) = true :=
        pyIn_lower _ _ (red_flags_lower_fixed f2 hf2) h2
      have hcount : 2 ≤ red_flags.countP (fun f => pyIn f.data (pyLower a.data)) :=
        countP_two red_flags _ f1 f2 hf1 hf2 hne l1 l2
      rw [if_pos hcount]
    · by_cases hh : 2 ≤ red_flags.countP (fun f => pyIn f.data (pyLower a.data))
      · rw [if_pos hh]
      · rw [if_neg hh, if_pos hmeta]

theorem suggestionLe_trans : ∀ a b c : String × Nat × Nat,
    suggestionLe a b → suggestionLe b c → suggestionLe a c := by
  intro a b c hab hbc
  simp only [suggestionLe, Bool.or_eq_true, Bool.and_eq_true, decide_eq_true_eq] at *
  omega

theorem suggestionLe_total : ∀ a b : String × Nat × Nat,
    suggestionLe a b || suggestionLe b a := by
  intro a b
  simp only [suggestionLe, Bool.or_eq_true, Bool.and_eq_true, decide_eq_true_eq]
  omega

theorem sortSelect_pairwise (msc : String → Nat) (cands : List String) (k : Nat)
    (hnd : cands.Nodup) :
    ((((cands.enum.map (fun iq => (iq.2, msc iq.2, iq.1))).mergeSort
          suggestionLe).take k).map (fun t => t.1)).Pairwise
      (fun a b => msc b < msc a ∨ (msc a = msc b ∧
        cands.indexOf a < cands.indexOf b)) := by
  set scored := cands.enum.map (fun iq => (iq.2, msc iq.2, iq.1)) with hscored
  set sorted := scored.mergeSort suggestionLe with hsortedDef
  have hperm : List.Perm sorted scored := List.mergeSort_perm scored suggestionLe
  have hPW1 : sorted.Pairwise (fun a b => suggestionLe a b = true) := by
    simpa using List.sorted_mergeSort suggestionLe_trans suggestionLe_total scored
  have hidx : (sorted.map (fun t => t.2.2)).Nodup := by
    have h1 : (scored.map (fun t => t.2.2)).Nodup := by
      rw [hscored, List.map_map]
      have hfe : ((fun t : String × Nat × Nat => t.2.2) ∘
          (fun iq : Nat × String => (iq.2, msc iq.2, iq.1))) = Prod.fst := rfl
      rw [hfe]
      exact List.nodup_enum_map_fst cands
    exact ((hperm.map _).nodup_iff).2 h1
  have hPW2 : sorted.Pairwise (fun a b => a.2.2 ≠ b.2.2) :=
    (List.pairwise_map).1 hidx
  have hPW3 : sorted.Pairwise
      (fun a b => b.2.1 < a.2.1 ∨ (a.2.1 = b.2.1 ∧ a.2.2 < b.2.2)) := by
    apply (hPW1.and hPW2).imp
    intro a b hh
    obtain ⟨hle, hne⟩ := hh
    simp only [suggestionLe, Bool.or_eq_true, Bool.and_eq_true, decide_eq_true_eq] at hle
    omega
  have hcomp : ∀ t ∈ sorted, t.2.1 = msc t.1 ∧ cands.indexOf t.1 = t.2.2 := by
    intro t ht
    have ht2 : t ∈ scored := hperm.mem_iff.1 ht
    rw [hscored] at ht2
    simp only [List.mem_map] at ht2
    obtain ⟨iq, hiq, rfl⟩ := ht2
    obtain ⟨i, q⟩ := iq
    refine ⟨rfl, ?_⟩
    have hget := List.mk_mem_enum_iff_getElem?.1 hiq
    have hlt : i < cands.length := by
      by_contra hge
      rw [List.getElem?_eq_none (le_of_not_lt hge)] at hget
      exact Option.noConfusion hget
    have hq : cands[i] = q := by
      have hg2 := List.getElem?_eq_getElem hlt
      rw [hg2] at hget
      exact Option.some.inj hget
    dsimp only
    rw [← hq]
    exact List.indexOf_getElem hnd i hlt
  rw [List.pairwise_map]
  have htake : (sorted.take k).Pairwise
      (fun a b => b.2.1 < a.2.1 ∨ (a.2.1 = b.2.1 ∧ a.2.2 < b.2.2)) :=
    hPW3.sublist (List.take_sublist k sorted)
  apply List.Pairwise.imp_of_mem ?_ htake
  intro a b ha hb hab
  have ha' := hcomp a ((List.take_sublist k sorted).subset ha)
  have hb' := hcomp b ((List.take_sublist k sorted).subset hb)
  rcases hab with h | hh
  · left
    rw [← ha'.1, ← hb'.1]
    exact h
  · obtain ⟨h1, h2⟩ := hh
    right
    constructor
    · rw [← ha'.1, ← hb'.1]
      exact h1
    · rw [ha'.2, hb'.2]
      exact h2

theorem append_ne_of_drop_ne (n s c : String)
    (h : s.data ≠ c.data.drop (c.data.length - s.data.length)) :
    n ++ s ≠ c := by
  intro he
  apply h
  have hd : n.data ++ s.data = c.data := by
    have := congrArg String.data he
    simpa using this
  have hlen : n.data.length + s.data.length = c.data.length := by
    have := congrArg List.length hd
    simpa using this
  have hdrop := congrArg (List.drop n.data.length) hd
  rw [List.drop_left] at hdrop
  have hn : n.data.length = c.data.length - s.data.length := by omega
  rw [← hn]
  exact hdrop

theorem append_inj_of_ne (n s t : String) (h : s ≠ t) : n ++ s ≠ n ++ t := by
  intro he
  apply h
  have hd := congrArg String.data he
  simp only [String.data_append] at hd
  have := List.append_cancel_left hd
  exact String.ext this

theorem get_default_questions_nodup (product : Option ProductRow) :
    (get_default_questions product).Nodup := by
  cases product with
  | none => decide
  | some p =>
    unfold get_default_questions
    dsimp only
    split
    · simp only [List.nodup_cons, List.mem_cons, List.mem_singleton, List.not_mem_nil,
        or_false, not_or, List.nodup_nil, and_true, not_false_eq_true]
      refine ⟨⟨?_, ?_, ?_, ?_⟩, ⟨?_, ?_, ?_⟩, ⟨?_, ?_⟩, ?_⟩ <;>
        first
          | (apply append_inj_of_ne; decide)
          | (apply append_ne_of_drop_ne; decide)
    · split
      · simp only [List.nodup_cons, List.mem_cons, List.mem_singleton, List.not_mem_nil,
          or_false, not_or, List.nodup_nil, and_true, not_false_eq_true]
        refine ⟨⟨?_, ?_, ?_, ?_⟩, ⟨?_, ?_, ?_⟩, ⟨?_, ?_⟩, ?_⟩ <;>
          first
            | (apply append_inj_of_ne; decide)
            | (apply append_ne_of_drop_ne; decide)
      · simp only [List.nodup_cons, List.mem_cons, List.mem_singleton, List.not_mem_nil,
          or_false, not_or, List.nodup_nil, and_true, not_false_eq_true]
        refine ⟨⟨?_, ?_, ?_, ?_⟩, ⟨?_, ?_, ?_⟩, ⟨?_, ?_⟩, ?_⟩ <;>
          first
            | (apply append_inj_of_ne; decide)
            | (apply append_ne_of_drop_ne; decide)

theorem suggestions_len (stop : List String) (product : Option ProductRow)
    (user_query : String) (asked_questions : List String) (top_k : Nat) :
    (suggest_related_questions stop product user_query asked_questions top_k).length
      ≤ top_k := by
  unfold suggest_related_questions
  dsimp only
  split
  · simp
  · simp only [List.length_map, List.length_take]
    exact min_le_left _ _

theorem suggestions_mem (stop : List String) (product : Option ProductRow)
    (user_query : String) (asked_questions : List String) (top_k : Nat) :
    ∀ s ∈ suggest_related_questions stop product user_query asked_questions top_k,
      s ∈ get_default_questions product ∧ s ∉ asked_questions := by
  unfold suggest_related_questions
  dsimp only
  split
  · intro s hs
    simp at hs
  · intro s hs
    simp only [List.mem_map] at hs
    obtain ⟨t, ht, rfl⟩ := hs
    have ht1 : t ∈ ((get_default_questions product).filter
        (fun q => ¬ asked_questions.contains q)).enum.map
          (fun iq => (iq.2, question_match_score stop user_query iq.2, iq.1)) := by
      have hms := (List.take_sublist _ _).subset ht
      exact (List.mergeSort_perm _ suggestionLe).mem_iff.1 hms
    simp only [List.mem_map] at ht1
    obtain ⟨iq, hiq, rfl⟩ := ht1
    obtain ⟨i, q⟩ := iq
    have hget := List.mk_mem_enum_iff_getElem?.1 hiq
    have hmemf : q ∈ (get_default_questions product).filter
        (fun q => ¬ asked_questions.contains q) := by
      have hlt : i < ((get_default_questions product).filter
          (fun q => ¬ asked_questions.contains q)).length := by
        by_contra hge
        rw [List.getElem?_eq_none (le_of_not_lt hge)] at hget
        exact Option.noConfusion hget
      have hg2 := List.getElem?_eq_getElem hlt
      rw [hg2] at hget
      rw [← Option.some.inj hget]
      exact List.getElem_mem hlt
    have := List.mem_filter.1 hmemf
    refine ⟨this.1, ?_⟩
    have hnc := of_decide_eq_true this.2
    intro hmem
    exact hnc ((contains_true_iff asked_questions q).2 hmem)

theorem suggestions_sorted (stop : List String) (product : Option ProductRow)
    (user_query : String) (asked_questions : List String) (top_k : Nat)
    (hnd : ((get_default_questions product).filter
        (fun q => ¬ asked_questions.contains q)).Nodup) :
    (suggest_related_questions stop product user_query asked_questions top_k).Pairwise
      (fun a b =>
        question_match_score stop user_query b < question_match_score stop user_query a
        ∨ (question_match_score stop user_query a = question_match_score stop user_query b
           ∧ List.indexOf a ((get_default_questions product).filter
                (fun q => ¬ asked_questions.contains q))
             < List.indexOf b ((get_default_questions product).filter
                (fun q => ¬ asked_questions.contains q)))) := by
  unfold suggest_related_questions
  dsimp only
  split
  · exact List.Pairwise.nil
  · exact sortSelect_pairwise (question_match_score stop user_query) _ top_k hnd

/-! ## Claim theorems -/

/-- C1: the confidence gate is an exact trichotomy on the retrieved
evidence.  When the list is empty, or nonempty with maximum score strictly
below 0.05, `handle_chat` returns the fixed refusal answer with empty
sources and empty suggested questions and performs no generation call
(`generateEngines = []`); otherwise (in particular at a maximum of exactly
0.05) the gate returns `none` and the turn proceeds past it. -/
theorem confidence_gate_trichotomy (query : String) (product_id : Int)
    (hist : List String) (o : Oracles) (hav : o.geminiAvailable = true) :
    ((o.retrieved = [] ∨ best_score o.retrieved < MIN_CONTEXT_SCORE) →
      handle_chat query product_id "gemini" hist o =
        (.ok { answer := no_rag_fallback_answer, sources := [], engine := "gemini",
               product_id := product_id, suggested_questions := [] },
         { retrieveCalls := 1, generateEngines := [] }))
    ∧ (o.retrieved ≠ [] → ¬ best_score o.retrieved < MIN_CONTEXT_SCORE →
        build_stop_response_if_needed o.retrieved "gemini" product_id = none) := by
  constructor
  · intro h
    have hstop : build_stop_response_if_needed o.retrieved "gemini" product_id =
        some (build_no_rag_stop_response "gemini" product_id) := by
      rcases h with h | h
      · simp [build_stop_response_if_needed, h]
      · by_cases he : o.retrieved = [] <;>
          simp [build_stop_response_if_needed, he, h]
    simp [handle_chat, hav, hstop, build_no_rag_stop_response, build_chat_response]
  · intro h1 h2
    simp [build_stop_response_if_needed, h1, h2]

/-- Witness for C1 at a concrete empty-evidence turn. -/
theorem confidence_gate_trichotomy_check :
    handle_chat "q" 1 "gemini" [] oBlank =
      (.ok { answer := no_rag_fallback_answer, sources := [], engine := "gemini",
             product_id := 1, suggested_questions := [] },
       { retrieveCalls := 1, generateEngines := [] }) :=
  (confidence_gate_trichotomy "q" 1 [] oBlank rfl).1 (Or.inl rfl)

/-- C2: at a turn where the direct-QnA shortcut fires on the
highest-scoring passage (flag on, qna category, score 0.22, shared
keyword, recoverable answer half) with a second passage also retrieved,
the service layer `handle_chat` returns the answer half verbatim with
exactly one source — that passage — and no suggestions and no generation
call, but the mounted route `api_chat` returns the same answer with ALL
retrieved contexts (here two) as sources, contradicting the claim's
"exactly one element". -/
theorem direct_qna_sources_divergence :
    handle_chat "방수 되나요?" 1 "gemini" [] oC2 =
      (.ok { answer := "네, IPX7 등급입니다.",
             sources := [{ source_id := "p1",
                           content := "Q: 방수 되나요?\nA: 네, IPX7 등급입니다.",
                           type := "qna", score := mkRat 22 100 }],
             engine := "gemini", product_id := 1, suggested_questions := [] },
       { retrieveCalls := 1, generateEngines := [] })
    ∧ api_chat "방수 되나요?" 1 "gemini" [] oC2 =
      (.ok { answer := "네, IPX7 등급입니다.",
             sources := [{ content := "Q: 방수 되나요?\nA: 네, IPX7 등급입니다.",
                           type := "qna", score := mkRat 22 100 },
                         { content := "후기: 배송이 빨라요",
                           type := "review", score := mkRat 10 100 }],
             engine := "gemini", product_id := 1, suggested_questions := [] },
       { retrieveCalls := 1, generateEngines := [] }) :=
  ⟨rfl, rfl⟩

/-- C3: whenever a completed turn made a generation call and the parsed
answer contains two distinct red-flag fragments, or contains the
meta-phrase at least twice, the turn's response is the fixed refusal with
empty sources and empty suggestions — the generated answer is never
returned. -/
theorem template_garbage_forces_refusal (query : String) (product_id : Int)
    (engine : String) (hist : List String) (o : Oracles) (resp : ChatResponse)
    (log : CallLog)
    (hrun : handle_chat query product_id engine hist o = (.ok resp, log))
    (hgen : log.generateEngines ≠ [])
    (hbad : contains_two_red_flags (parse_llm_output o.jsonLoads o.geminiText).1
            ∨ 2 ≤ pyCount META_PHRASE.data
                ((parse_llm_output o.jsonLoads o.geminiText).1).data) :
    resp = { answer := no_rag_fallback_answer, sources := [], engine := "gemini",
             product_id := product_id, suggested_questions := [] } := by
  unfold handle_chat at hrun
  by_cases he : engine = "gemini"
  case neg =>
    rw [if_pos he] at hrun
    exact absurd hrun (by simp)
  case pos =>
    subst he
    rw [if_neg (by simp)] at hrun
    cases havb : o.geminiAvailable with
    | false =>
      rw [if_pos havb] at hrun
      exact absurd hrun (by simp)
    | true =>
      rw [if_neg (by simp [havb])] at hrun
      dsimp only at hrun
      cases hstop : build_stop_response_if_needed o.retrieved "gemini" product_id with
      | some stop =>
        simp only [hstop] at hrun
        have hl : log = { retrieveCalls := 1, generateEngines := [] } := by
          have h1 := congrArg Prod.snd hrun
          simpa using h1.symm
        rw [hl] at hgen
        exact absurd rfl hgen
      | none =>
        simp only [hstop] at hrun
        cases hdir : try_direct_qna_answer o.stopTokens o.directQnaEnabled query
            o.retrieved "gemini" product_id with
        | some dir =>
          simp only [hdir] at hrun
          have hl : log = { retrieveCalls := 1, generateEngines := [] } := by
            have h1 := congrArg Prod.snd hrun
            simpa using h1.symm
          rw [hl] at hgen
          exact absurd rfl hgen
        | none =>
          simp only [hdir] at hrun
          have hgene : generate_answer o "gemini" = (.ok o.geminiText, ["gemini"]) := by
            simp [generate_answer, havb]
          simp only [hgene] at hrun
          have hg : looks_like_template_garbage
              (parse_llm_output o.jsonLoads o.geminiText).1 = true :=
            garbage_of_bad _ hbad
          rw [if_pos hg] at hrun
          have hr : resp = build_no_rag_stop_response "gemini" product_id := by
            have h1 := congrArg Prod.fst hrun
            simpa using h1.symm
          rw [hr]
          rfl

/-- Witness for C3: a turn whose generation output contains the fragments
`"q:"` and `"a:"` completes with the refusal response. -/
theorem template_garbage_forces_refusal_check :
    handle_chat "질문" 1 "gemini" [] oGarb =
      (.ok { answer := no_rag_fallback_answer, sources := [], engine := "gemini",
             product_id := 1, suggested_questions := [] },
       { retrieveCalls := 1, generateEngines := ["gemini"] })
    ∧ ({ answer := no_rag_fallback_answer, sources := [], engine := "gemini",
         product_id := 1, suggested_questions := [] } : ChatResponse)
      = { answer := no_rag_fallback_answer, sources := [], engine := "gemini",
          product_id := 1, suggested_questions := [] } :=
  ⟨rfl,
   template_garbage_forces_refusal "질문" 1 "gemini" [] oGarb _ _ rfl
     (by simp)
     (Or.inl (by unfold contains_two_red_flags; decide))⟩

/-- C4: attribution returns exactly the retrieved passages whose
`source_id` lies in the cited-id list (the intersection with the ids
actually present), converted to sources, and the filter is idempotent:
re-filtering its own output against the same cited ids returns the same
list. -/
theorem attribution_exact_and_idempotent (contexts : List Context)
    (used_source_ids : List String) :
    (∀ s, s ∈ filter_sources_by_used_ids contexts used_source_ids ↔
      ∃ ctx ∈ contexts, ctxSourceId ctx ∈ used_source_ids ∧
        s = context_to_source ctx)
    ∧ filter_sources_by_used_ids
        ((filter_sources_by_used_ids contexts used_source_ids).map sourceAsContext)
        used_source_ids
      = filter_sources_by_used_ids contexts used_source_ids :=
  ⟨fun s => mem_filter_sources contexts used_source_ids s,
   filter_sources_idem contexts used_source_ids⟩

/-- C5: when the backend output parses as a JSON object neither as a whole
(after strip and code-fence removal) nor as the first-`{`-to-last-`}`
substring, the parser returns the entire raw text as the answer with an
empty cited-id list, and the attribution filter on an empty cited-id list
yields no sources. -/
theorem parse_failure_raw_answer_empty_cited (jsonLoads : String → Option JValue)
    (raw_text : String) (contexts : List Context)
    (hwhole : ∀ fields, jsonLoads (String.mk (preprocessJson raw_text)) ≠
      some (.jobj fields))
    (hslice : ∀ candidate fields,
      brace_slice (preprocessJson raw_text) = some candidate →
      jsonLoads (String.mk candidate) ≠ some (.jobj fields)) :
    parse_llm_output jsonLoads raw_text = (raw_text, [])
    ∧ filter_sources_by_used_ids contexts [] = [] := by
  have hx : extract_json_object jsonLoads raw_text = none := by
    unfold extract_json_object
    by_cases hr : raw_text = ""
    · simp [hr]
    · rw [if_neg hr]
      dsimp only
      cases hjl : jsonLoads (String.mk (preprocessJson raw_text)) with
      | none =>
        cases hbs : brace_slice (preprocessJson raw_text) with
        | none => simp
        | some cand =>
          cases hc : jsonLoads (String.mk cand) with
          | none => simp [hc]
          | some v =>
            cases v with
            | jobj fields => exact absurd hc (hslice cand fields hbs)
            | jstr s => simp [hc]
            | jlist xs => simp [hc]
            | jother r => simp [hc]
      | some v =>
        cases v with
        | jobj fields => exact absurd hjl (hwhole fields)
        | jstr s => simp
        | jlist xs => simp
        | jother r => simp
  constructor
  · simp [parse_llm_output, hx]
  · simp [filter_sources_by_used_ids]

/-- Witness for C5 with a parser that always fails. -/
theorem parse_failure_check :
    parse_llm_output (fun _ => none) "자유 형식 텍스트" = ("자유 형식 텍스트", [])
    ∧ filter_sources_by_used_ids [qnaCtx] [] = [] :=
  parse_failure_raw_answer_empty_cited (fun _ => none) "자유 형식 텍스트" [qnaCtx]
    (by simp) (by simp)

/-- C6: on every turn the generation call (if any) uses exactly the
backend the caller requested: the list of backends invoked by
`handle_chat` is empty or `[engine]` — the dispatcher's gemini-to-local
fallback branch is unreachable from the orchestrator because availability
is checked before retrieval. -/
theorem generation_uses_requested_engine_only (query : String) (product_id : Int)
    (engine : String) (hist : List String) (o : Oracles) :
    (handle_chat query product_id engine hist o).2.generateEngines = []
    ∨ (handle_chat query product_id engine hist o).2.generateEngines = [engine] := by
  unfold handle_chat
  split
  · exact Or.inl rfl
  next henge =>
    have he : engine = "gemini" := not_not.mp henge
    subst he
    split
    · exact Or.inl rfl
    next hav =>
      have hav' : o.geminiAvailable = true := by
        cases h : o.geminiAvailable
        · exact absurd h hav
        · rfl
      have hgen : generate_answer o "gemini" = (.ok o.geminiText, ["gemini"]) := by
        simp [generate_answer, hav']
      split
      next err engs heq =>
        rw [hgen] at heq
        simp at heq
      next raw engs heq =>
        rw [hgen] at heq
        have hengs : engs = ["gemini"] := by
          have := congrArg Prod.snd heq
          simpa using this.symm
        subst hengs
        dsimp only
        split
        · exact Or.inl rfl
        · split
          · exact Or.inl rfl
          · split
            · exact Or.inr rfl
            · exact Or.inr rfl

/-- C7: a backend name other than `"gemini"` is rejected with status 400,
and an accepted but unavailable backend with the distinct status 503; in
both cases before the retrieval call and before any other external call
(`retrieveCalls = 0`, `generateEngines = []`). -/
theorem invalid_engine_rejected_before_retrieval (query : String) (product_id : Int)
    (engine : String) (hist : List String) (o : Oracles) :
    (engine ≠ "gemini" →
      handle_chat query product_id engine hist o =
        (.error { status := 400 }, { retrieveCalls := 0, generateEngines := [] }))
    ∧ (engine = "gemini" → o.geminiAvailable = false →
      handle_chat query product_id engine hist o =
        (.error { status := 503 }, { retrieveCalls := 0, generateEngines := [] })) := by
  constructor
  · intro h
    simp [handle_chat, h]
  · intro he hav
    subst he
    simp [handle_chat, hav]

/-- Witness for C7: a `"local"` request is rejected with 400, and a
`"gemini"` request with Gemini unavailable with 503, both before
retrieval. -/
theorem invalid_engine_rejected_check :
    handle_chat "q" 1 "local" [] oBlank =
      (.error { status := 400 }, { retrieveCalls := 0, generateEngines := [] })
    ∧ handle_chat "q" 1 "gemini" [] { oBlank with geminiAvailable := false } =
      (.error { status := 503 }, { retrieveCalls := 0, generateEngines := [] }) :=
  ⟨(invalid_engine_rejected_before_retrieval "q" 1 "local" [] oBlank).1 (by decide),
   (invalid_engine_rejected_before_retrieval "q" 1 "gemini" []
     { oBlank with geminiAvailable := false }).2 rfl rfl⟩

/-- C8: every turn that completes without raising returns a non-empty
answer string, on every path: gate stop and garbage replacement return the
refusal text, the shortcut's answer half is non-empty by construction, and
on the generation path an empty parsed answer would have been classified
garbage. -/
theorem answer_never_empty (query : String) (product_id : Int) (engine : String)
    (hist : List String) (o : Oracles) (resp : ChatResponse) (log : CallLog)
    (h : handle_chat query product_id engine hist o = (.ok resp, log)) :
    resp.answer ≠ "" := by
  unfold handle_chat at h
  by_cases he : engine = "gemini"
  case neg =>
    rw [if_pos he] at h
    exact absurd h (by simp)
  case pos =>
    subst he
    rw [if_neg (by simp)] at h
    cases havb : o.geminiAvailable with
    | false =>
      rw [if_pos havb] at h
      exact absurd h (by simp)
    | true =>
      rw [if_neg (by simp [havb])] at h
      dsimp only at h
      cases hstop : build_stop_response_if_needed o.retrieved "gemini" product_id with
      | some stop =>
        simp only [hstop] at h
        have hr : resp = stop := by
          have h1 := congrArg Prod.fst h
          simpa using h1.symm
        rw [hr, stop_response_shape _ _ _ _ hstop]
        simp [build_no_rag_stop_response, build_chat_response, no_rag_fallback_answer]
      | none =>
        simp only [hstop] at h
        cases hdir : try_direct_qna_answer o.stopTokens o.directQnaEnabled query
            o.retrieved "gemini" product_id with
        | some dir =>
          simp only [hdir] at h
          have hr : resp = dir := by
            have h1 := congrArg Prod.fst h
            simpa using h1.symm
          rw [hr]
          exact direct_answer_nonempty _ _ _ _ _ _ _ hdir
        | none =>
          simp only [hdir] at h
          cases hgen : generate_answer o "gemini" with
          | mk res engs =>
            cases res with
            | error e =>
              simp only [hgen] at h
              exact absurd h (by simp)
            | ok raw =>
              simp only [hgen] at h
              cases hng : looks_like_template_garbage
                  (parse_llm_output o.jsonLoads raw).1 with
              | true =>
                rw [if_pos hng] at h
                have hr : resp = build_no_rag_stop_response "gemini" product_id := by
                  have h1 := congrArg Prod.fst h
                  simpa using h1.symm
                rw [hr]
                simp [build_no_rag_stop_response, build_chat_response,
                  no_rag_fallback_answer]
              | false =>
                rw [if_neg (by simp [hng])] at h
                have hr : resp = build_chat_response
                    (parse_llm_output o.jsonLoads raw).1
                    (filter_sources_by_used_ids o.retrieved
                      (parse_llm_output o.jsonLoads raw).2)
                    "gemini" product_id
                    (suggest_related_questions o.stopTokens o.product query hist 2) := by
                  have h1 := congrArg Prod.fst h
                  simpa using h1.symm
                rw [hr]
                exact garbage_false_nonempty _ hng

/-- Witness for C8 on the gate-stop path. -/
theorem answer_never_empty_check :
    (build_no_rag_stop_response "gemini" 1).answer ≠ "" :=
  answer_never_empty "q" 1 "gemini" [] oBlank
    (build_no_rag_stop_response "gemini" 1)
    { retrieveCalls := 1, generateEngines := [] } rfl

/-- C9: the suggestion generator returns at most `top_k` questions, each
taken from the item's template set and absent from the asked-question
list, ordered by strictly descending match score with ties broken by the
candidate's original template position (every template set the code
builds is duplicate-free, so the position is well defined). -/
theorem suggestions_bounded_unasked_sorted (stop : List String)
    (product : Option ProductRow) (user_query : String)
    (asked_questions : List String) (top_k : Nat) :
    (suggest_related_questions stop product user_query asked_questions top_k).length
      ≤ top_k
    ∧ (∀ s ∈ suggest_related_questions stop product user_query asked_questions top_k,
        s ∈ get_default_questions product ∧ s ∉ asked_questions)
    ∧ (suggest_related_questions stop product user_query
          asked_questions top_k).Pairwise
        (fun a b =>
          question_match_score stop user_query b <
            question_match_score stop user_query a
          ∨ (question_match_score stop user_query a =
               question_match_score stop user_query b
             ∧ List.indexOf a ((get_default_questions product).filter
                  (fun q => ¬ asked_questions.contains q))
               < List.indexOf b ((get_default_questions product).filter
                  (fun q => ¬ asked_questions.contains q)))) :=
  ⟨suggestions_len stop product user_query asked_questions top_k,
   suggestions_mem stop product user_query asked_questions top_k,
   suggestions_sorted stop product user_query asked_questions top_k
     (List.Nodup.filter _ (get_default_questions_nodup product))⟩

/-- Witness for C9 at a concrete item-less template set with one question
already asked. -/
theorem suggestions_bounded_check :
    (suggest_related_questions DEFAULT_QUERY_STOP_TOKENS none "배송 문의"
        ["이 제품의 핵심 특징을 알려주세요"] 2).length ≤ 2
    ∧ (∀ s ∈ suggest_related_questions DEFAULT_QUERY_STOP_TOKENS none "배송 문의"
          ["이 제품의 핵심 특징을 알려주세요"] 2,
        s ∈ get_default_questions none
        ∧ s ∉ (["이 제품의 핵심 특징을 알려주세요"] : List String))
    ∧ (suggest_related_questions DEFAULT_QUERY_STOP_TOKENS none "배송 문의"
          ["이 제품의 핵심 특징을 알려주세요"] 2).Pairwise
        (fun a b =>
          question_match_score DEFAULT_QUERY_STOP_TOKENS "배송 문의" b <
            question_match_score DEFAULT_QUERY_STOP_TOKENS "배송 문의" a
          ∨ (question_match_score DEFAULT_QUERY_STOP_TOKENS "배송 문의" a =
               question_match_score DEFAULT_QUERY_STOP_TOKENS "배송 문의" b
             ∧ List.indexOf a ((get_default_questions none).filter
                  (fun q => ¬ (["이 제품의 핵심 특징을 알려주세요"] : List String).contains q))
               < List.indexOf b ((get_default_questions none).filter
                  (fun q => ¬ (["이 제품의 핵심 특징을 알려주세요"] : List String).contains q)))) :=
  suggestions_bounded_unasked_sorted DEFAULT_QUERY_STOP_TOKENS none "배송 문의"
    ["이 제품의 핵심 특징을 알려주세요"] 2

/-- C10: when the backend output parses as a JSON object whose `answer`
field is missing, not a string, or whitespace-only, the raw backend text
becomes the answer while the cited-id list is still taken from the parsed
`used_source_ids` field (blank entries dropped), not reset to empty — so
the response's sources can be non-empty even though the answer did not
come from the structured field. -/
theorem missing_answer_field_keeps_cited_ids (jsonLoads : String → Option JValue)
    (raw_text : String) (fields : List (String × JValue)) (xs : List JValue)
    (hraw : raw_text ≠ "")
    (hparse : jsonLoads (String.mk (preprocessJson raw_text)) = some (.jobj fields))
    (hans : ∀ s, jlookup fields "answer" = some (.jstr s) → pyStrip s.data = [])
    (hused : jlookup fields "used_source_ids" = some (.jlist xs)) :
    parse_llm_output jsonLoads raw_text =
      (raw_text, (xs.filter (fun x => pyStrip (pyStr x).data ≠ [])).map pyStr) := by
  have hx : extract_json_object jsonLoads raw_text = some fields := by
    unfold extract_json_object
    rw [if_neg hraw]
    dsimp only
    rw [hparse]
  unfold parse_llm_output
  rw [hx]
  dsimp only
  rw [hused]
  cases hget : jlookup fields "answer" with
  | none => simp
  | some v =>
    cases v with
    | jstr s =>
      have := hans s hget
      simp [this]
    | jlist ys => simp
    | jobj fs => simp
    | jother r => simp

/-- Witness for C10: a parsed object with a JSON-null `answer` and
cited ids `["p1", " "]` yields the raw text as answer and keeps the
non-blank cited id, which then selects a source. -/
theorem missing_answer_field_check :
    parse_llm_output (fun _ => some (.jobj sampleFields)) "원문 텍스트" =
      ("원문 텍스트", ["p1"]) := by
  have h := missing_answer_field_keeps_cited_ids (fun _ => some (.jobj sampleFields))
    "원문 텍스트" sampleFields [JValue.jstr "p1", JValue.jstr " "]
    (by decide) rfl
    (fun s hs => absurd hs (by simp [jlookup, sampleFields]))
    rfl
  rw [h]
  simp [pyStr, pyStrip, isPySpace]
